import Mathlib

/-!
Shallow embedding of the remote command execution and streaming session manager
of `src/bin/vip-wp.js` (the version with offset tracking, SIGINT counting and
the `--log` option).  The subshell prompt loop, the stream-event handlers
installed by `bindStreamEvents`, the `reconnect`/`reconnect_attempt` handlers,
the SIGINT handler and the top-level `argv` flow are modelled as a step
function on an explicit state, emitting a list of observable actions
(console output, RPC calls, transport opens, process exit) in program order.
Telemetry calls (`trackEvent`, `rollbar`) are not modelled: they are out of
scope collaborators with no effect on control flow.
-/

namespace VipWp

/-- Translation of `const cancelCommandChar = '\x03'`. -/
def cancelCommandChar : String := "\x03"

/-- Boolean prefix test on character lists. -/
def charsLeading : List Char → List Char → Bool
  | [], _ => true
  | _ :: _, [] => false
  | a :: as, b :: bs => a == b && charsLeading as bs

/-- JS `line.startsWith( pat )`: code-point prefix test on the string data. -/
def jsStartsWith (line pat : String) : Bool :=
  charsLeading pat.data line.data

/-- JS falsiness of a string value: exactly the empty string is falsy.
Used for the `if ( ! line )` check and the `0 === line.length` check. -/
def jsFalsy (line : String) : Bool := line.data.isEmpty

/-- JS `line === other` for strings. -/
def jsEq (a b : String) : Bool := a.data == b.data

/-- JS `String.prototype.replace` with a string pattern replaces only the first
occurrence.  This is the list-level engine for `line.replace( 'wp ', '' )`. -/
def removeFirst (pat : List Char) : List Char → List Char
  | [] => []
  | c :: rest =>
    if charsLeading pat (c :: rest) then (c :: rest).drop pat.length
    else c :: removeFirst pat rest

/-- Translation of `line.replace( 'wp ', '' )`. -/
def stripWp (line : String) : String :=
  ⟨removeFirst "wp ".data line.data⟩

/-- The `--log` CLI option value: absent, bare `--log` (JS value `true`),
or `--log <guid>` with a concrete command id. -/
inductive LogOpt
  | absent
  | flagTrue
  | guid (id : String)
  deriving DecidableEq, Repr

/-- JS truthiness of `opts.log`: `true` is truthy, a string is truthy iff
non-empty, an absent option is falsy. -/
def LogOpt.truthy : LogOpt → Bool
  | .absent => false
  | .flagTrue => true
  | .guid id => !id.data.isEmpty

/-- The guid the line handler takes from `opts.log` in the
`cliCommand = { guid: opts.log }` branch.  The `flagTrue` case never reaches
the line handler: the top-level flow exits in the listing branch first. -/
def LogOpt.guidStr : LogOpt → String
  | .guid id => id
  | _ => ""

/-- One completed command node returned by the commands listing query
(`COMMANDS_QUERY`), with the fields the listing prints. -/
structure CommandRec where
  command : String
  guid : String
  startedAt : String
  deriving DecidableEq, Repr

/-- One environment of the app as returned by the listing query. -/
structure Env where
  id : Nat
  commands : List CommandRec
  deriving DecidableEq, Repr

/-- Observable effects of the handlers, in program order. -/
inductive Action
  | validationError            -- console.log('Error:', 'invalid command, ...')
  | graphQLError (msg : String)  -- one structured GraphQL error, printed individually
  | dumpError                  -- non-GraphQL dispatch error dumped wholesale
  | streamError                -- stdoutStream 'error' handler console.log
  | printCancelledByUser       -- console.log('Command cancelled by user')
  | printCancelled             -- console.log('Command cancelled') on declined confirm
  | confirmAsk                 -- the production confirmation prompt
  | welcome                    -- the subshell welcome banner
  | dispatchCall (command : String)  -- getTokenForCommand round trip
  | listingCall                -- getEnvCompletedCommands query
  | printCmd (c : CommandRec)  -- one printed line of the listing
  | transportOpen (guid : String) (offset : Nat) (commandAction : Option String)
      -- launchCommandAndGetStreams( { guid, inputToken, offset, commandAction } )
  | writeCancelChar            -- process.stdin.write( cancelCommandChar )
  | exitProc (code : Nat)      -- process.exit; no argument means code 0
  | promptAgain                -- subShellRl.prompt()
  | crashTypeError             -- reading `.commands` of `undefined`
  | retryMsg                   -- console.error('There was an error connecting ...')
  deriving DecidableEq, Repr

/-- Outcome of the `getTokenForCommand` round trip, supplied by the
environment when the handler awaits the dispatcher. -/
inductive DispatchResult
  | ok (guid : String) (inputToken : String)
  | gqlErrs (msgs : List String)
  | otherErr
  deriving DecidableEq, Repr

/-- Events delivered to the handlers of the prompt loop and of the currently
bound stream pair, one per callback invocation. -/
inductive LoopEvent
  | lineEv (line : String) (dr : DispatchResult)  -- subShellRl 'line'
  | dataChunk (len : Nat)      -- stdoutStream 'data' with a chunk of this length
  | outEnded                   -- stdoutStream 'end'
  | outErrored                 -- stdoutStream 'error'
  | reconnectEv                -- socket 'reconnect'
  | reconnectAttempt           -- socket 'reconnect_attempt'
  | sigint                     -- subShellRl 'SIGINT'
  | serverCancel               -- socket 'cancel'
  deriving DecidableEq, Repr

/-- The process-wide mutable state of the loop: `commandRunning`,
`countSIGINT`, `currentOffset`, whether process stdin/stdout are currently
piped to the current job stream pair, the guid of the current job, and the
exit status once `process.exit` has run. -/
structure LoopState where
  commandRunning : Bool
  countSIGINT : Nat
  currentOffset : Nat
  stdinPiped : Bool
  stdoutPiped : Bool
  curGuid : String
  exited : Option Nat
  deriving DecidableEq, Repr

/-- State at the start of the `argv` callback: `commandRunning = false`,
`countSIGINT = 0`, `currentOffset = 0`, nothing piped, no job. -/
def initState : LoopState :=
  { commandRunning := false, countSIGINT := 0, currentOffset := 0,
    stdinPiped := false, stdoutPiped := false, curGuid := "", exited := none }

/-- Translation of the `subShellRl.on( 'line', ... )` handler.  The dispatch
outcome `dr` is consumed only on the `! opts.log` path that actually awaits
`getTokenForCommand`; the `dispatchCall` action records that the round trip
was made (also when it fails). -/
def handleLine (log : LogOpt) (isSubShell : Bool) (s : LoopState)
    (line : String) (dr : DispatchResult) : LoopState × List Action :=
  if s.commandRunning then (s, [])
  else if jsFalsy line then (s, [.promptAgain])
  else if jsStartsWith line "exit" then ({ s with exited := some 0 }, [.exitProc 0])
  else
    let startsWithWp := jsStartsWith line "wp "
    let empty := jsFalsy line
    let userCmdCancelled := jsEq line cancelCommandChar
    if (empty || !startsWithWp) && !userCmdCancelled && !log.truthy then
      (s, [.validationError, .promptAgain])
    else if !log.truthy then
      match dr with
      | .gqlErrs msgs =>
        if !isSubShell then
          ({ s with exited := some 1 },
            .dispatchCall (stripWp line) :: msgs.map Action.graphQLError ++ [.exitProc 1])
        else
          (s, .dispatchCall (stripWp line) :: msgs.map Action.graphQLError ++ [.promptAgain])
      | .otherErr =>
        if !isSubShell then
          ({ s with exited := some 1 }, [.dispatchCall (stripWp line), .dumpError, .exitProc 1])
        else
          (s, [.dispatchCall (stripWp line), .dumpError, .promptAgain])
      | .ok guid _tok =>
        ({ s with
            commandRunning := true, stdinPiped := true, stdoutPiped := true
            curGuid := guid },
          [.dispatchCall (stripWp line), .transportOpen guid 0 none])
    else
      ({ s with
          commandRunning := true, stdinPiped := true, stdoutPiped := true
          curGuid := log.guidStr },
        [.transportOpen log.guidStr 0 (some "logs")])

/-- One event-handler step.  Each branch is translated from the corresponding
handler of the source: the `stdoutStream` data/end/error handlers, the socket
reconnect, reconnect_attempt and cancel handlers, and the SIGINT handler.
A process that has already exited runs no handlers. -/
def stepLoop (log : LogOpt) (isSubShell : Bool) (s : LoopState) :
    LoopEvent → LoopState × List Action
  | .lineEv line dr =>
    if s.exited.isSome then (s, []) else handleLine log isSubShell s line dr
  | .dataChunk len =>
    if s.exited.isSome then (s, [])
    else ({ s with currentOffset := len + s.currentOffset }, [])
  | .outEnded =>
    if s.exited.isSome then (s, [])
    else
      let s1 := { s with
        commandRunning := false, stdinPiped := false
        stdoutPiped := false, currentOffset := 0 }
      if !isSubShell then ({ s1 with exited := some 0 }, [.exitProc 0])
      else (s1, [.promptAgain])
  | .outErrored =>
    if s.exited.isSome then (s, [])
    else ({ s with commandRunning := false }, [.streamError])
  | .reconnectEv =>
    if s.exited.isSome then (s, [])
    else (s, [.transportOpen s.curGuid s.currentOffset none])
  | .reconnectAttempt =>
    if s.exited.isSome then (s, [])
    else ({ s with stdinPiped := false, stdoutPiped := false }, [.retryMsg])
  | .sigint =>
    if s.exited.isSome then (s, [])
    else if 1 ≤ s.countSIGINT then ({ s with exited := some 0 }, [.exitProc 0])
    else
      let s1 := { s with countSIGINT := s.countSIGINT + 1 }
      if s1.commandRunning then (s1, [.writeCancelChar, .printCancelledByUser])
      else ({ s1 with exited := some 0 },
        [.writeCancelChar, .printCancelledByUser, .exitProc 0])
  | .serverCancel =>
    if s.exited.isSome then (s, []) else ({ s with exited := some 1 }, [.exitProc 1])

/-- Run a sequence of events, accumulating the emitted actions in order. -/
def runLoop (log : LogOpt) (isSubShell : Bool) :
    LoopState → List LoopEvent → LoopState × List Action
  | s, [] => (s, [])
  | s, e :: rest =>
    let p1 := stepLoop log isSubShell s e
    let p2 := runLoop log isSubShell p1.1 rest
    (p2.1, p1.2 ++ p2.2)

/-- Spec-side running sum: total length of the data chunks in an event list. -/
def sumDataLens : List LoopEvent → Nat
  | [] => 0
  | .dataChunk len :: rest => len + sumDataLens rest
  | _ :: rest => sumDataLens rest

/-- Offsets carried by the transport opens in an action list, in order. -/
def openOffsets : List Action → List Nat
  | [] => []
  | .transportOpen _ off _ :: rest => off :: openOffsets rest
  | _ :: rest => openOffsets rest

/-- Spec-side expectation: each reconnect should carry the running sum of the
chunk lengths seen so far (starting from `acc`). -/
def expectedOpens (acc : Nat) : List LoopEvent → List Nat
  | [] => []
  | .dataChunk len :: rest => expectedOpens (len + acc) rest
  | .reconnectEv :: rest => acc :: expectedOpens acc rest
  | _ :: rest => expectedOpens acc rest

/-- An event is part of the mid-command stream traffic: a data chunk or a
transport reconnect. -/
def isStreamTraffic : LoopEvent → Prop
  | .dataChunk _ => True
  | .reconnectEv => True
  | _ => False

instance (e : LoopEvent) : Decidable (isStreamTraffic e) := by
  cases e <;> simp only [isStreamTraffic] <;> infer_instance

/-- Count of dispatcher round trips in an action list. -/
def countDispatch (acts : List Action) : Nat :=
  acts.countP fun a => match a with | .dispatchCall _ => true | _ => false

/-- Translation of `res.data.app.environments.find( e => e.id = envId )`:
the callback assigns `envId` to `e.id` and the assignment expression evaluates
to `envId`, so the predicate tests the truthiness of `envId` itself.  With a
truthy (non-zero) `envId` the first environment matches, with its `id`
overwritten; with a falsy `envId` nothing matches. -/
def findAssign (envId : Nat) : List Env → Option Env
  | [] => none
  | e :: rest =>
    if envId ≠ 0 then some { e with id := envId } else findAssign envId rest

/-- Translation of the top-level `argv` callback up to (and including, in
one-shot mode) the injected `wp <cmd>` line.  `cmd` is the requoted joined
argument list, `confirmAnswer` the reply to the production confirmation
prompt, `envs`/`envId` the data used by the `--log true` listing branch, and
`dr` the dispatch outcome consumed by the injected line in one-shot mode.
In subshell mode the function returns the upfront actions; subsequent lines
are separate `stepLoop` events. -/
def mainActions (args : List String) (cmd : String) (log : LogOpt)
    (yesFlag : Bool) (isProd : Bool) (confirmAnswer : Bool)
    (envs : List Env) (envId : Nat) (dr : DispatchResult) : List Action :=
  let isSubShell := args.isEmpty && !log.truthy
  if log = .flagTrue then
    Action.listingCall ::
      (match findAssign envId envs with
       | some env => (env.commands.map Action.printCmd) ++ [Action.exitProc 0]
       | none => [Action.crashTypeError])
  else if isSubShell then
    [Action.welcome]
  else if isProd && !yesFlag && !confirmAnswer then
    [Action.confirmAsk, Action.printCancelled, Action.exitProc 0]
  else
    (if isProd && !yesFlag then [Action.confirmAsk] else []) ++
      (stepLoop log false initState (.lineEv ("wp " ++ cmd) dr)).2

end VipWp

namespace VipWp

/-! Helper lemmas. -/

/-- Lines of the form `wp <cmd>` are never falsy. -/
theorem jsFalsy_wp (cmd : String) : jsFalsy ("wp " ++ cmd) = false := rfl

/-- Lines of the form `wp <cmd>` never trip the `exit` check. -/
theorem wp_not_exit (cmd : String) : jsStartsWith ("wp " ++ cmd) "exit" = false := rfl

/-- Lines of the form `wp <cmd>` pass the invocation check. -/
theorem wp_starts_wp (cmd : String) : jsStartsWith ("wp " ++ cmd) "wp " = true := rfl

/-- Lines of the form `wp <cmd>` are never the cancellation byte. -/
theorem wp_not_cancel (cmd : String) :
    jsEq ("wp " ++ cmd) cancelCommandChar = false := rfl

/-- Running only stream traffic (data chunks and reconnect events) from a live
state accumulates chunk lengths into `currentOffset`, emits exactly the
expected reconnect-open offsets, and keeps the process alive. -/
theorem runLoop_stream_traffic (log : LogOpt) (isSub : Bool)
    (evs : List LoopEvent) :
    ∀ s : LoopState, s.exited = none → (∀ e ∈ evs, isStreamTraffic e) →
      (runLoop log isSub s evs).1.currentOffset
          = sumDataLens evs + s.currentOffset ∧
      openOffsets (runLoop log isSub s evs).2
          = expectedOpens s.currentOffset evs ∧
      (runLoop log isSub s evs).1.exited = none := by
  induction evs with
  | nil =>
    intro s hs _
    simp [runLoop, sumDataLens, expectedOpens, openOffsets, hs]
  | cons e rest ih =>
    intro s hs hall
    have he := hall e (List.mem_cons_self _ _)
    have hrest : ∀ x ∈ rest, isStreamTraffic x :=
      fun x hx => hall x (List.mem_cons_of_mem _ hx)
    cases e with
    | dataChunk len =>
      have hmain := ih
        { s with currentOffset := len + s.currentOffset, exited := none } rfl hrest
      simp only [runLoop, stepLoop, hs, Option.isSome_none, Bool.false_eq_true,
        if_false, sumDataLens, expectedOpens, List.nil_append]
      refine ⟨?_, hmain.2.1, hmain.2.2⟩
      rw [hmain.1]
      simp only []
      omega
    | reconnectEv =>
      have hmain := ih s hs hrest
      simp only [runLoop, stepLoop, hs, Option.isSome_none, Bool.false_eq_true,
        if_false, sumDataLens, expectedOpens, List.singleton_append, openOffsets]
      exact ⟨hmain.1, by rw [hmain.2.1], hmain.2.2⟩
    | lineEv line dr => simp [isStreamTraffic] at he
    | outEnded => simp [isStreamTraffic] at he
    | outErrored => simp [isStreamTraffic] at he
    | reconnectAttempt => simp [isStreamTraffic] at he
    | sigint => simp [isStreamTraffic] at he
    | serverCancel => simp [isStreamTraffic] at he

/-- Claim C1: for every sequence of output data chunks of lengths `l1..ln`
delivered for one logical command, across any number of reconnects, the
tracked `currentOffset` after the sequence equals `l1+...+ln`; every
transport re-open triggered by a `reconnect` event carries exactly that
running sum as its offset parameter; a further reconnect leaves the offset
unchanged, and only the output-stream `end` handler resets it to 0. -/
theorem offset_tracks_sum_and_reconnect_carries_it (log : LogOpt)
    (isSub : Bool) (s : LoopState) (evs : List LoopEvent)
    (halive : s.exited = none) (hoff : s.currentOffset = 0)
    (hstream : ∀ e ∈ evs, isStreamTraffic e) :
    (runLoop log isSub s evs).1.currentOffset = sumDataLens evs ∧
    openOffsets (runLoop log isSub s evs).2 = expectedOpens 0 evs ∧
    (stepLoop log isSub (runLoop log isSub s evs).1 .reconnectEv).1.currentOffset
        = sumDataLens evs ∧
    (stepLoop log isSub (runLoop log isSub s evs).1 .outEnded).1.currentOffset
        = 0 := by
  have hmain := runLoop_stream_traffic log isSub evs s halive hstream
  have h1 : (runLoop log isSub s evs).1.currentOffset = sumDataLens evs := by
    rw [hmain.1, hoff]
    omega
  refine ⟨h1, by rw [hmain.2.1, hoff], ?_, ?_⟩
  · simp [stepLoop, hmain.2.2, h1]
  · cases isSub <;> simp [stepLoop, hmain.2.2]

/-- Witness for C1 on a concrete trace: chunks of lengths 5 and 7 with a
reconnect after each; the reconnect opens carry offsets 5 and 12. -/
theorem offset_tracks_sum_witness :
    (∀ e ∈ ([.dataChunk 5, .reconnectEv, .dataChunk 7, .reconnectEv] :
        List LoopEvent), isStreamTraffic e) ∧
    ((runLoop .absent true { initState with commandRunning := true }
        [.dataChunk 5, .reconnectEv, .dataChunk 7, .reconnectEv]).1.currentOffset
      = sumDataLens [.dataChunk 5, .reconnectEv, .dataChunk 7, .reconnectEv] ∧
    openOffsets (runLoop .absent true { initState with commandRunning := true }
        [.dataChunk 5, .reconnectEv, .dataChunk 7, .reconnectEv]).2
      = expectedOpens 0 [.dataChunk 5, .reconnectEv, .dataChunk 7, .reconnectEv] ∧
    (stepLoop .absent true (runLoop .absent true
        { initState with commandRunning := true }
        [.dataChunk 5, .reconnectEv, .dataChunk 7, .reconnectEv]).1
        .reconnectEv).1.currentOffset
      = sumDataLens [.dataChunk 5, .reconnectEv, .dataChunk 7, .reconnectEv] ∧
    (stepLoop .absent true (runLoop .absent true
        { initState with commandRunning := true }
        [.dataChunk 5, .reconnectEv, .dataChunk 7, .reconnectEv]).1
        .outEnded).1.currentOffset = 0) :=
  ⟨by decide,
    offset_tracks_sum_and_reconnect_carries_it .absent true
      { initState with commandRunning := true }
      [.dataChunk 5, .reconnectEv, .dataChunk 7, .reconnectEv]
      rfl rfl (by decide)⟩

end VipWp

namespace VipWp

/-- Claim C2: while `commandRunning` is true and no interrupt has occurred
since the loop started (the SIGINT counter is still at its initial value 0),
one local SIGINT does not terminate the process and writes the cancellation
byte exactly once, and a second consecutive SIGINT with no intervening
command completion terminates the process immediately. -/
theorem single_sigint_cancels_double_sigint_exits (log : LogOpt)
    (isSub : Bool) (s : LoopState) (halive : s.exited = none)
    (hrun : s.commandRunning = true) (hcnt : s.countSIGINT = 0) :
    (stepLoop log isSub s .sigint).1.exited = none ∧
    (stepLoop log isSub s .sigint).2.count .writeCancelChar = 1 ∧
    (stepLoop log isSub (stepLoop log isSub s .sigint).1 .sigint).1.exited
        = some 0 := by
  simp [stepLoop, halive, hrun, hcnt, List.count_cons]

/-- Witness for C2 at the state reached right after a dispatch succeeds. -/
theorem single_sigint_cancels_witness :
    ({ initState with commandRunning := true } : LoopState).exited = none ∧
    ({ initState with commandRunning := true } : LoopState).commandRunning
        = true ∧
    ({ initState with commandRunning := true } : LoopState).countSIGINT = 0 ∧
    ((stepLoop .absent true { initState with commandRunning := true }
        .sigint).1.exited = none ∧
    (stepLoop .absent true { initState with commandRunning := true }
        .sigint).2.count .writeCancelChar = 1 ∧
    (stepLoop .absent true (stepLoop .absent true
        { initState with commandRunning := true } .sigint).1 .sigint).1.exited
        = some 0) :=
  ⟨rfl, rfl, rfl,
    single_sigint_cancels_double_sigint_exits .absent true
      { initState with commandRunning := true } rfl rfl rfl⟩

/-- Claim C3 counterexample: run `wp a`, interrupt it once (the interrupt ends
the stream, so the `end` handler fires and the loop is back to IDLE with
`commandRunning = false`), then run `wp b` and deliver a single interrupt.
`countSIGINT` is still 1 after returning to IDLE, so the single interrupt of
the second command terminates the process at once, contradicting the claimed
reset to 0. -/
theorem countSIGINT_not_reset_counterexample :
    (runLoop .absent true initState
      [.lineEv "wp a" (.ok "g" "t"), .sigint, .outEnded]).1.commandRunning
        = false ∧
    (runLoop .absent true initState
      [.lineEv "wp a" (.ok "g" "t"), .sigint, .outEnded]).1.countSIGINT = 1 ∧
    (runLoop .absent true initState
      [.lineEv "wp a" (.ok "g" "t"), .sigint, .outEnded,
       .lineEv "wp b" (.ok "h" "u"), .sigint]).1.exited = some 0 := by decide

/-- Claim C3 amended: `countSIGINT` is never reset after its initialization:
the output-stream `end` handler (the transition back to IDLE) leaves it
unchanged, and once it is at least 1 any later SIGINT terminates the process
immediately, so an interrupt delivered after a completed command is treated
as a forced-quit second interrupt whenever any earlier interrupt occurred. -/
theorem countSIGINT_never_reset (log : LogOpt) (isSub : Bool) (s : LoopState)
    (halive : s.exited = none) :
    (stepLoop log isSub s .outEnded).1.countSIGINT = s.countSIGINT ∧
    (1 ≤ s.countSIGINT → (stepLoop log isSub s .sigint).1.exited = some 0) := by
  constructor
  · cases isSub <;> simp [stepLoop, halive]
  · intro h
    simp [stepLoop, halive, h]

/-- Witness for C3 amended at a state with one recorded interrupt. -/
theorem countSIGINT_never_reset_witness :
    ({ initState with countSIGINT := 1 } : LoopState).exited = none ∧
    ((stepLoop .absent true { initState with countSIGINT := 1 }
        .outEnded).1.countSIGINT
      = ({ initState with countSIGINT := 1 } : LoopState).countSIGINT ∧
    (1 ≤ ({ initState with countSIGINT := 1 } : LoopState).countSIGINT →
      (stepLoop .absent true { initState with countSIGINT := 1 }
        .sigint).1.exited = some 0)) :=
  ⟨rfl, countSIGINT_never_reset .absent true
    { initState with countSIGINT := 1 } rfl⟩

end VipWp

namespace VipWp

/-- Claim C4 counterexample: dispatch `wp a` successfully (stdio gets piped
and `commandRunning` becomes true), then deliver an output-stream `error`
event.  The error handler sets `commandRunning := false` but does not unpipe,
so `commandRunning` is false while process stdio is still piped to the
session stream pair, refuting the claimed if-and-only-if. -/
theorem commandRunning_iff_piped_counterexample :
    (runLoop .absent true initState
      [.lineEv "wp a" (.ok "g" "t"), .outErrored]).1.commandRunning = false ∧
    (runLoop .absent true initState
      [.lineEv "wp a" (.ok "g" "t"), .outErrored]).1.stdinPiped = true ∧
    (runLoop .absent true initState
      [.lineEv "wp a" (.ok "g" "t"), .outErrored]).1.stdoutPiped = true := by
  decide

/-- Claim C4 amended: `commandRunning` is false in the initial idle state and
immediately after an output-stream `end` event, and in both situations
process stdio is unbound; a successful dispatch sets it true together with
both pipes; but after an output-stream `error` event `commandRunning` is
false while the pipes are left exactly as they were (still bound if a command
was streaming), so the if-and-only-if holds on the idle and `end` paths only,
not after `error`. -/
theorem commandRunning_binding_discipline (log : LogOpt) (isSub : Bool)
    (s : LoopState) (guid tok cmd : String) (halive : s.exited = none)
    (hidle : s.commandRunning = false) :
    initState.commandRunning = false ∧ initState.stdinPiped = false ∧
    initState.stdoutPiped = false ∧
    (stepLoop log isSub s .outEnded).1.commandRunning = false ∧
    (stepLoop log isSub s .outEnded).1.stdinPiped = false ∧
    (stepLoop log isSub s .outEnded).1.stdoutPiped = false ∧
    (stepLoop .absent isSub s (.lineEv ("wp " ++ cmd)
        (.ok guid tok))).1.commandRunning = true ∧
    (stepLoop .absent isSub s (.lineEv ("wp " ++ cmd)
        (.ok guid tok))).1.stdinPiped = true ∧
    (stepLoop .absent isSub s (.lineEv ("wp " ++ cmd)
        (.ok guid tok))).1.stdoutPiped = true ∧
    (stepLoop log isSub s .outErrored).1.commandRunning = false ∧
    (stepLoop log isSub s .outErrored).1.stdinPiped = s.stdinPiped ∧
    (stepLoop log isSub s .outErrored).1.stdoutPiped = s.stdoutPiped := by
  refine ⟨rfl, rfl, rfl, ?_, ?_, ?_, ?_, ?_, ?_, ?_, ?_, ?_⟩ <;>
    cases isSub <;>
    simp [stepLoop, handleLine, halive, hidle, jsFalsy_wp, wp_not_exit,
      wp_starts_wp, wp_not_cancel, LogOpt.truthy]

/-- Witness for C4 amended at the initial state with a concrete command. -/
theorem commandRunning_binding_witness :
    initState.exited = none ∧ initState.commandRunning = false ∧
    (initState.commandRunning = false ∧ initState.stdinPiped = false ∧
    initState.stdoutPiped = false ∧
    (stepLoop .absent true initState .outEnded).1.commandRunning = false ∧
    (stepLoop .absent true initState .outEnded).1.stdinPiped = false ∧
    (stepLoop .absent true initState .outEnded).1.stdoutPiped = false ∧
    (stepLoop .absent true initState (.lineEv ("wp " ++ "a")
        (.ok "g" "t"))).1.commandRunning = true ∧
    (stepLoop .absent true initState (.lineEv ("wp " ++ "a")
        (.ok "g" "t"))).1.stdinPiped = true ∧
    (stepLoop .absent true initState (.lineEv ("wp " ++ "a")
        (.ok "g" "t"))).1.stdoutPiped = true ∧
    (stepLoop .absent true initState .outErrored).1.commandRunning = false ∧
    (stepLoop .absent true initState .outErrored).1.stdinPiped
        = initState.stdinPiped ∧
    (stepLoop .absent true initState .outErrored).1.stdoutPiped
        = initState.stdoutPiped) :=
  ⟨rfl, rfl,
    commandRunning_binding_discipline .absent true initState "g" "t" "a"
      rfl rfl⟩

end VipWp

namespace VipWp

/-- Claim C5: a submitted line equal to the single cancellation control byte
passes the line validation (no validation error is printed) even though it
does not start with the `wp ` invocation prefix; while `commandRunning` is
true the line handler ignores every submitted line, and the remote-side
interrupt is forwarded by the SIGINT handler writing the cancellation byte
into the (piped) process stdin. -/
theorem cancel_char_line_accepted (isSub : Bool) (dr drb : DispatchResult)
    (s t : LoopState) (line : String) (hs : s.exited = none)
    (hsidle : s.commandRunning = false) (ht : t.exited = none)
    (htrun : t.commandRunning = true) (htcnt : t.countSIGINT = 0) :
    jsStartsWith cancelCommandChar "wp " = false ∧
    Action.validationError ∉
      (stepLoop .absent isSub s (.lineEv cancelCommandChar dr)).2 ∧
    stepLoop .absent isSub t (.lineEv line drb) = (t, []) ∧
    (Action.writeCancelChar ∈ (stepLoop .absent isSub t .sigint).2 ∧
      t.stdinPiped = t.stdinPiped) := by
  refine ⟨by decide, ?_, ?_, ?_, rfl⟩
  · cases dr <;> cases isSub <;>
      simp [stepLoop, handleLine, hs, hsidle, LogOpt.truthy, jsFalsy, jsEq,
        jsStartsWith, charsLeading, cancelCommandChar]
  · simp [stepLoop, handleLine, ht, htrun]
  · simp [stepLoop, ht, htrun, htcnt]

/-- Witness for C5 with the idle initial state and a running state. -/
theorem cancel_char_line_witness :
    initState.exited = none ∧ initState.commandRunning = false ∧
    ({ initState with commandRunning := true } : LoopState).exited = none ∧
    ({ initState with commandRunning := true } : LoopState).commandRunning
        = true ∧
    ({ initState with commandRunning := true } : LoopState).countSIGINT = 0 ∧
    (jsStartsWith cancelCommandChar "wp " = false ∧
    Action.validationError ∉
      (stepLoop .absent true initState (.lineEv cancelCommandChar .otherErr)).2 ∧
    stepLoop .absent true { initState with commandRunning := true }
        (.lineEv "wp media regenerate" .otherErr)
      = ({ initState with commandRunning := true }, []) ∧
    (Action.writeCancelChar ∈ (stepLoop .absent true
        { initState with commandRunning := true } .sigint).2 ∧
      ({ initState with commandRunning := true } : LoopState).stdinPiped
        = ({ initState with commandRunning := true } : LoopState).stdinPiped)) :=
  ⟨rfl, rfl, rfl, rfl, rfl,
    cancel_char_line_accepted true .otherErr .otherErr initState
      { initState with commandRunning := true } "wp media regenerate"
      rfl rfl rfl rfl rfl⟩

/-- Claim C6 counterexample: the line `exit` is non-empty, does not start
with `wp `, is not the cancellation byte and is submitted with `--log`
unset, yet it is not rejected with a validation error: the handler closes
the prompt and terminates the process with status 0. -/
theorem nonwp_line_rejection_counterexample :
    jsFalsy "exit" = false ∧
    jsStartsWith "exit" "wp " = false ∧
    jsEq "exit" cancelCommandChar = false ∧
    stepLoop .absent true initState (.lineEv "exit" .otherErr)
      = ({ initState with exited := some 0 }, [.exitProc 0]) ∧
    Action.validationError ∉
      (stepLoop .absent true initState (.lineEv "exit" .otherErr)).2 := by
  decide

/-- Claim C6 amended: every line that is non-empty, does not start with the
`wp ` invocation prefix, is not the cancellation byte, does not start with
`exit`, and is submitted while no command is running and `--log` is unset,
is rejected with the validation error message, the loop state is unchanged
(still idle), and the dispatcher is never called for that line. -/
theorem invalid_line_rejected (isSub : Bool) (s : LoopState) (line : String)
    (dr : DispatchResult) (halive : s.exited = none)
    (hidle : s.commandRunning = false) (hne : jsFalsy line = false)
    (hnwp : jsStartsWith line "wp " = false)
    (hnc : jsEq line cancelCommandChar = false)
    (hnx : jsStartsWith line "exit" = false) :
    stepLoop .absent isSub s (.lineEv line dr)
      = (s, [.validationError, .promptAgain]) ∧
    countDispatch (stepLoop .absent isSub s (.lineEv line dr)).2 = 0 := by
  have h1 : stepLoop .absent isSub s (.lineEv line dr)
      = (s, [.validationError, .promptAgain]) := by
    simp [stepLoop, handleLine, halive, hidle, hne, hnwp, hnc, hnx,
      LogOpt.truthy]
  refine ⟨h1, ?_⟩
  rw [h1]
  show countDispatch [Action.validationError, Action.promptAgain] = 0
  decide

/-- Witness for C6 amended on the invalid line `ls`. -/
theorem invalid_line_rejected_witness :
    initState.exited = none ∧ initState.commandRunning = false ∧
    jsFalsy "ls" = false ∧ jsStartsWith "ls" "wp " = false ∧
    jsEq "ls" cancelCommandChar = false ∧ jsStartsWith "ls" "exit" = false ∧
    (stepLoop .absent true initState (.lineEv "ls" .otherErr)
      = (initState, [.validationError, .promptAgain]) ∧
    countDispatch (stepLoop .absent true initState (.lineEv "ls" .otherErr)).2
      = 0) :=
  ⟨rfl, rfl, rfl, rfl, rfl, rfl,
    invalid_line_rejected true initState "ls" .otherErr rfl rfl rfl rfl rfl rfl⟩

end VipWp

namespace VipWp

/-- Claim C7: when the dispatcher round trip fails with structured GraphQL
errors, each error is printed individually (one `graphQLError` action per
message); in one-shot mode the process then exits with status 1, and in
subshell mode the loop returns to the idle prompt with the state unchanged
and without exiting. -/
theorem dispatch_failure_modes (s : LoopState) (cmd : String)
    (msgs : List String) (halive : s.exited = none)
    (hidle : s.commandRunning = false) :
    stepLoop .absent false s (.lineEv ("wp " ++ cmd) (.gqlErrs msgs))
      = ({ s with exited := some 1 },
          .dispatchCall (stripWp ("wp " ++ cmd)) ::
            (msgs.map Action.graphQLError ++ [.exitProc 1])) ∧
    stepLoop .absent true s (.lineEv ("wp " ++ cmd) (.gqlErrs msgs))
      = (s, .dispatchCall (stripWp ("wp " ++ cmd)) ::
          (msgs.map Action.graphQLError ++ [.promptAgain])) := by
  constructor <;>
    simp [stepLoop, handleLine, halive, hidle, jsFalsy_wp, wp_not_exit,
      wp_starts_wp, wp_not_cancel, LogOpt.truthy]

/-- Witness for C7 on a concrete failing dispatch with two errors. -/
theorem dispatch_failure_modes_witness :
    initState.exited = none ∧ initState.commandRunning = false ∧
    (stepLoop .absent false initState
        (.lineEv ("wp " ++ "option get x") (.gqlErrs ["denied", "quota"]))
      = ({ initState with exited := some 1 },
          .dispatchCall (stripWp ("wp " ++ "option get x")) ::
            (["denied", "quota"].map Action.graphQLError ++ [.exitProc 1])) ∧
    stepLoop .absent true initState
        (.lineEv ("wp " ++ "option get x") (.gqlErrs ["denied", "quota"]))
      = (initState, .dispatchCall (stripWp ("wp " ++ "option get x")) ::
          (["denied", "quota"].map Action.graphQLError ++ [.promptAgain]))) :=
  ⟨rfl, rfl,
    dispatch_failure_modes initState "option get x" ["denied", "quota"]
      rfl rfl⟩

/-- Claim C8: in one-shot mode against a production environment without the
`--yes` flag, the confirmation prompt is the first action, before any
dispatch call; if the user declines, the process exits with code 0 and the
dispatcher is called zero times. -/
theorem production_confirm_gates_dispatch (args : List String) (cmd : String)
    (envs : List Env) (envId : Nat) (dr : DispatchResult) (answer : Bool)
    (hargs : args ≠ []) :
    mainActions args cmd .absent false true false envs envId dr
      = [.confirmAsk, .printCancelled, .exitProc 0] ∧
    countDispatch
      (mainActions args cmd .absent false true false envs envId dr) = 0 ∧
    (mainActions args cmd .absent false true answer envs envId dr).head?
      = some .confirmAsk := by
  have hne : args.isEmpty = false := by
    cases args with
    | nil => exact absurd rfl hargs
    | cons a as => rfl
  have h1 : mainActions args cmd .absent false true false envs envId dr
      = [.confirmAsk, .printCancelled, .exitProc 0] := by
    simp [mainActions, hne, LogOpt.truthy]
  refine ⟨h1, by rw [h1]; decide, ?_⟩
  cases answer with
  | false => rw [h1]; rfl
  | true =>
    simp [mainActions, hne, LogOpt.truthy]

/-- Witness for C8 in one-shot mode with one argument. -/
theorem production_confirm_witness :
    (["option"] : List String) ≠ [] ∧
    (mainActions ["option"] "option get x" .absent false true false [] 3
        .otherErr = [.confirmAsk, .printCancelled, .exitProc 0] ∧
    countDispatch (mainActions ["option"] "option get x" .absent false true
        false [] 3 .otherErr) = 0 ∧
    (mainActions ["option"] "option get x" .absent false true true [] 3
        .otherErr).head? = some .confirmAsk) :=
  ⟨by decide,
    production_confirm_gates_dispatch ["option"] "option get x" [] 3
      .otherErr true (by decide)⟩

end VipWp

namespace VipWp

/-- Claim C9: invoked with `--log <id>` where `<id>` is a concrete (non-empty)
command id rather than the boolean `true`, the flow issues no
command-listing query and makes no dispatch round trip; the only effect is
opening a session transport with `commandAction` set to `logs` and the given
id as the command guid. -/
theorem log_attach_opens_transport_directly (args : List String)
    (cmd : String) (id : String) (envs : List Env) (envId : Nat)
    (dr : DispatchResult) (isProd : Bool)
    (hid : (LogOpt.guid id).truthy = true) :
    mainActions args cmd (.guid id) true isProd true envs envId dr
      = [.transportOpen id 0 (some "logs")] ∧
    Action.listingCall ∉
      mainActions args cmd (.guid id) true isProd true envs envId dr ∧
    countDispatch
      (mainActions args cmd (.guid id) true isProd true envs envId dr) = 0 := by
  have h1 : mainActions args cmd (.guid id) true isProd true envs envId dr
      = [.transportOpen id 0 (some "logs")] := by
    cases isProd <;>
      simp [mainActions, stepLoop, handleLine, hid, initState, jsFalsy_wp,
        wp_not_exit, wp_starts_wp, wp_not_cancel, LogOpt.guidStr]
  refine ⟨h1, by rw [h1]; simp, by rw [h1]; rfl⟩

/-- Witness for C9 with a concrete id. -/
theorem log_attach_witness :
    (LogOpt.guid "cmd-guid-1").truthy = true ∧
    (mainActions [] "" (.guid "cmd-guid-1") true false true [] 3 .otherErr
      = [.transportOpen "cmd-guid-1" 0 (some "logs")] ∧
    Action.listingCall ∉
      mainActions [] "" (.guid "cmd-guid-1") true false true [] 3 .otherErr ∧
    countDispatch (mainActions [] "" (.guid "cmd-guid-1") true false true []
      3 .otherErr) = 0) :=
  ⟨rfl,
    log_attach_opens_transport_directly [] "" "cmd-guid-1" [] 3 .otherErr
      false rfl⟩

/-- Claim C10: with `--log true` (listing mode) and a truthy target
environment id, the environment lookup `environments.find( e => e.id = envId )`
assigns rather than compares, so it returns the first environment of the
response with its `id` field overwritten by the target environment id, and
the commands printed are exactly the first environment's commands,
regardless of which environment was selected. -/
theorem log_listing_uses_first_env (args : List String) (cmd : String)
    (e : Env) (rest : List Env) (envId : Nat) (yesFlag isProd answer : Bool)
    (dr : DispatchResult) (henv : envId ≠ 0) :
    findAssign envId (e :: rest) = some { e with id := envId } ∧
    mainActions args cmd .flagTrue yesFlag isProd answer (e :: rest) envId dr
      = Action.listingCall ::
          (e.commands.map Action.printCmd ++ [Action.exitProc 0]) := by
  have h1 : findAssign envId (e :: rest) = some { e with id := envId } := by
    simp [findAssign, henv]
  refine ⟨h1, ?_⟩
  simp [mainActions, h1]

/-- Sample environments for the C10 witness. -/
def envA : Env := { id := 1, commands := [{ command := "wp a", guid := "g1", startedAt := "s1" }] }

/-- Second sample environment, the one whose id matches the target. -/
def envB : Env := { id := 2, commands := [{ command := "wp b", guid := "g2", startedAt := "s2" }] }

/-- Witness for C10 with two environments: the commands shown come from the
first environment even though the target id matches the second. -/
theorem log_listing_witness :
    (2 : Nat) ≠ 0 ∧
    (findAssign 2 [envA, envB] = some { envA with id := 2 } ∧
    mainActions [] "" .flagTrue false false false [envA, envB] 2 .otherErr
      = Action.listingCall ::
          (envA.commands.map Action.printCmd ++ [Action.exitProc 0])) :=
  ⟨by decide,
    log_listing_uses_first_env [] "" envA [envB] 2 false false false
      .otherErr (by decide)⟩

end VipWp
